import Mathlib

/-!
Verification of the saga coordination core of effect-app-saga.

The development shallowly embeds the data model and the saga-relevant
operations of the repository: the saga log store (src/SagaLog.ts), the
per-service repositories and HTTP handler bodies (src/Order.ts,
src/Payment.ts, the Inventory service), and the outbox store and
publisher (src/Outbox.ts).

Modelling conventions:
- UUIDs, enum literals and event types are Lean `String`s, mirroring the
  untyped JavaScript string values the handlers actually pass around
  (the Payment handler, for instance, writes the literals
  "PAYMENT_PROCESSED" and "INVENTORY", which are not members of the
  schema enums; a string model represents this faithfully).
- Dates are `Nat` ticks, JavaScript numbers are `Int`.
- Each repository call is one atomic auto-committed database action;
  there is no enclosing transaction anywhere in the source (the
  `withTransaction` wrapper in src/Order.ts is commented out).
- A handler body is a pure function from its inputs - including the
  results of its lookups and the simulated-failure coin flip - to the
  list of repository writes it issues plus the response envelope it
  returns.  A separate step function gives each write its database
  semantics as implemented by the repository SQL, and `runWrites` folds
  a write list over a database state, recording every committed
  intermediate state (each one is observable if the process stops
  there).
- `Effect.die` defects (SqlError or ParseError converted by
  `Effect.catchTag`) are modelled as `DbErr` results.

Field-name note: src/SagaLog.ts declares the saga primary key as
`sagaLogId` and the step-name field as `stepName`, while the handler
code in src/Order.ts and src/Payment.ts accesses the same data as
`saga.id` and `step.name`.  The embedding uses the SagaLog.ts schema
names throughout.
-/

namespace EffectSaga

/-- One entry of SagaLog.steps (src/SagaLog.ts, element of the `steps`
array schema). -/
structure Step where
  compensationStatus : String
  error : Option String
  status : String
  stepName : String
  timestamp : Option Nat
  deriving DecidableEq

/-- SagaLog row (src/SagaLog.ts `SagaLogSchema`). -/
structure SagaLog where
  customerId : String
  idempotencyKey : String
  orderId : Option String
  productId : String
  quantity : Int
  sagaLogId : String
  status : String
  steps : List Step
  totalPrice : Int
  createdAt : Nat
  deriving DecidableEq

/-- Order row (src/Order.ts `OrderSchema`). -/
structure Order where
  id : String
  customerId : String
  productId : String
  quantity : Int
  sagaLogId : String
  status : String
  totalPrice : Int
  deriving DecidableEq

/-- Payment row (src/Payment.ts `PaymentSchema`). -/
structure Payment where
  id : String
  amount : Int
  compensationKey : Option String
  customerId : String
  idempotencyKey : String
  orderId : String
  sagaLogId : String
  status : String
  deriving DecidableEq

/-- Inventory row (Inventory service `InventorySchemaStruct`,
repository-backed version). -/
structure Inventory where
  id : String
  compensationKey : Option String
  lastIdempotencyKey : Option String
  orderId : Option String
  productId : Option String
  quantity : Int
  reservedQuantity : Int
  deriving DecidableEq

/-- Shipping row (src/Shipping.ts `ShippingSchema`). -/
structure Shipping where
  id : String
  compensationKey : Option String
  customerId : String
  idempotencyKey : String
  orderId : String
  sagaLogId : String
  status : String
  deriving DecidableEq

/-- Outbox event row (src/Outbox.ts `OutboxSchema`, the version used by
the repository and publisher).  `payload` is kept opaque as a string;
no verified property inspects its structure. -/
structure Outbox where
  id : String
  aggregateId : String
  eventType : String
  isPublished : Bool
  lastError : Option String
  maxRetries : Nat
  payload : String
  publishAttempts : Nat
  publishedAt : Option Nat
  targetEndpoint : String
  targetService : String
  createdAt : Nat
  deriving DecidableEq

/-- Response envelope `\x7bsuccess, data?, message?, error?, orderId?,
sagaLogId?\x7d` returned by the handlers; absent JSON keys are `none`. -/
inductive RespData where
  | order (o : Order)
  | payment (p : Payment)
  | inventory (i : Inventory)
  deriving DecidableEq

structure Response where
  success : Bool
  message : String
  error : Option String := none
  orderId : Option String := none
  sagaLogId : Option String := none
  data : Option RespData := none
  deriving DecidableEq

/-- A step record with all column defaults of tbl_saga_step
(status PENDING, compensation_status PENDING, error and timestamp null).
The same values appear literally in the steps array built by the Order
start handler (src/Order.ts lines 216-245). -/
def pendingStep (n : String) : Step :=
  { compensationStatus := "PENDING", error := none, status := "PENDING",
    stepName := n, timestamp := none }

def pendingSteps : List Step :=
  [pendingStep "CREATE_ORDER", pendingStep "PROCESS_PAYMENT",
   pendingStep "UPDATE_INVENTORY", pendingStep "DELIVER_ORDER"]

/-- The `steps.map` pattern every handler uses to mutate the step record
matching one step name (for example src/Order.ts lines 266-270). -/
def markStep (s : SagaLog) (n : String) (f : Step → Step) : SagaLog :=
  { s with steps := s.steps.map (fun st => if st.stepName = n then f st else st) }

def stepOf (s : SagaLog) (n : String) : Option Step :=
  s.steps.find? (fun st => st.stepName = n)

/-- Per-service database state: one table per participant plus the saga
log and outbox tables. -/
structure Db where
  sagaLogs : List SagaLog
  orders : List Order
  payments : List Payment
  inventories : List Inventory
  shippings : List Shipping
  outbox : List Outbox
  deriving DecidableEq

def emptyDb : Db :=
  { sagaLogs := [], orders := [], payments := [], inventories := [],
    shippings := [], outbox := [] }

/-- Errors surfaced to a repository caller; both SqlError and ParseError
are converted to defects (`Effect.die`) by every repository. -/
inductive DbErr where
  | uniqueViolation (constraintName : String)
  | parseDefect
  deriving DecidableEq

/-- The create_saga_log SQL function (src/SagaLog.ts lines 211-263):
a plain INSERT of the scalar columns into tbl_saga_log (unique on the
primary key saga_log_id and on idempotency_key) followed by insertion
of the four default PENDING step rows.  The function takes no steps
argument: the caller's `steps` array is ignored and the stored steps
are always the defaults. -/
def create_saga_log (db : Db) (data : SagaLog) : Except DbErr Db :=
  if db.sagaLogs.any (fun r => r.sagaLogId = data.sagaLogId) then
    Except.error (DbErr.uniqueViolation "saga_log_id")
  else if db.sagaLogs.any (fun r => r.idempotencyKey = data.idempotencyKey) then
    Except.error (DbErr.uniqueViolation "idempotency_key")
  else
    Except.ok { db with sagaLogs := db.sagaLogs ++ [{ data with steps := pendingSteps }] }

/-- OrderRepository.save (src/Order.ts lines 99-116): INSERT ... ON
CONFLICT (id) DO UPDATE, a true upsert keyed by id. -/
def orderUpsert (db : Db) (o : Order) : Db :=
  if db.orders.any (fun r => r.id = o.id) then
    { db with orders := db.orders.map (fun r => if r.id = o.id then o else r) }
  else
    { db with orders := db.orders ++ [o] }

/-- PaymentRepository.save (src/Payment.ts lines 124-142): upsert keyed
by id. -/
def paymentUpsert (db : Db) (p : Payment) : Db :=
  if db.payments.any (fun r => r.id = p.id) then
    { db with payments := db.payments.map (fun r => if r.id = p.id then p else r) }
  else
    { db with payments := db.payments ++ [p] }

/-- InventoryRepository.save (Inventory service): upsert keyed by id. -/
def inventoryUpsert (db : Db) (i : Inventory) : Db :=
  if db.inventories.any (fun r => r.id = i.id) then
    { db with inventories := db.inventories.map (fun r => if r.id = i.id then i else r) }
  else
    { db with inventories := db.inventories ++ [i] }

/-- OutboxRepository.save (src/Outbox.ts lines 149-155): a plain
`INSERT INTO tbl_outbox ... RETURNING *` with no ON CONFLICT clause;
inserting an id that already exists violates the primary key. -/
def outboxInsert (db : Db) (e : Outbox) : Except DbErr Db :=
  if db.outbox.any (fun r => r.id = e.id) then
    Except.error (DbErr.uniqueViolation "tbl_outbox_pkey")
  else
    Except.ok { db with outbox := db.outbox ++ [e] }

/-- One repository write issued by a handler. -/
inductive DbWrite where
  | sagaSave (s : SagaLog)
  | orderSave (o : Order)
  | paymentSave (p : Payment)
  | inventorySave (i : Inventory)
  | outboxSave (e : Outbox)
  deriving DecidableEq

def isOutboxWrite : DbWrite → Bool
  | DbWrite.outboxSave _ => true
  | _ => false

/-- Database semantics of one write: the committed state afterwards and
the error, if any, raised to the caller.  SagaLogRepository.save
(src/SagaLog.ts lines 309-317) runs `SELECT create_saga_log(...)` and
then decodes the single returned column - the new row's UUID - with
`SagaLog.decodeUnknown`; a bare UUID string never decodes as a SagaLog
record, so even a successful insert commits and then raises a
ParseError defect to the caller. -/
def stepWrite (db : Db) (w : DbWrite) : Db × Option DbErr :=
  match w with
  | DbWrite.sagaSave s =>
    match create_saga_log db s with
    | Except.error e => (db, some e)
    | Except.ok db2 => (db2, some DbErr.parseDefect)
  | DbWrite.orderSave o => (orderUpsert db o, none)
  | DbWrite.paymentSave p => (paymentUpsert db p, none)
  | DbWrite.inventorySave i => (inventoryUpsert db i, none)
  | DbWrite.outboxSave e =>
    match outboxInsert db e with
    | Except.error er => (db, some er)
    | Except.ok db2 => (db2, none)

/-- Runs a handler's write list over a database state.  Returns every
committed intermediate state, in order, and the first error raised (the
handler aborts there).  There is no transaction: each committed state is
durable and observable if the process stops after it. -/
def runWrites : Db → List DbWrite → List Db × Option DbErr
  | _, [] => ([], none)
  | db, w :: ws =>
    let r := stepWrite db w
    match r.2 with
    | some e => ([r.1], some e)
    | none =>
      let rest := runWrites r.1 ws
      (r.1 :: rest.1, rest.2)

/-- Shared repository findOne pipeline (identical in SagaLog.ts,
Order.ts, Payment.ts, Shipping.ts and the Inventory service): take
`rows[0]` of the query result, feed it to the schema decoder, convert
ParseError to a defect.  When the query matches no row, `rows[0]` is
undefined, the decode fails, and the effect dies - it never returns a
null or undefined value to the handler. -/
def findOneDecode {α : Type} (rows : List α) : Except DbErr α :=
  match rows.head? with
  | none => Except.error DbErr.parseDefect
  | some r => Except.ok r

/-- SagaLogRepository.findOne with an idempotencyKey option
(src/SagaLog.ts lines 296-308). -/
def sagaLogFindByIdempotencyKey (db : Db) (key : String) : Except DbErr SagaLog :=
  findOneDecode (db.sagaLogs.filter (fun s => s.idempotencyKey = key))

/-- SagaLogRepository.findOne with a sagaLogId option. -/
def sagaLogFindById (db : Db) (sid : String) : Except DbErr SagaLog :=
  findOneDecode (db.sagaLogs.filter (fun s => s.sagaLogId = sid))

/-- OrderRepository.findOne by orderId (src/Order.ts lines 90-98). -/
def orderFindById (db : Db) (oid : String) : Except DbErr Order :=
  findOneDecode (db.orders.filter (fun o => o.id = oid))

/-- PaymentRepository.findOne by idempotencyKey (src/Payment.ts lines
111-123). -/
def paymentFindByIdempotencyKey (db : Db) (key : String) : Except DbErr Payment :=
  findOneDecode (db.payments.filter (fun p => p.idempotencyKey = key))

/-- InventoryRepository.findOne by productId. -/
def inventoryFindByProductId (db : Db) (pid : String) : Except DbErr Inventory :=
  findOneDecode (db.inventories.filter (fun i => i.productId = some pid))

/-- ShippingRepository.findOne by idempotencyKey (src/Shipping.ts). -/
def shippingFindByIdempotencyKey (db : Db) (key : String) : Except DbErr Shipping :=
  findOneDecode (db.shippings.filter (fun s => s.idempotencyKey = key))

/-! ## Inventory domain operations (for the invariant claim) -/

/-- The documented inventory invariant: 0 <= reservedQuantity <=
quantity.  The same bounds appear as CHECK constraints on tbl_inventory
(reserved_quantity >= 0, reserved_quantity <= quantity). -/
def inventoryInvariant (inv : Inventory) : Prop :=
  0 ≤ inv.reservedQuantity ∧ inv.reservedQuantity ≤ inv.quantity

/-- The update handler's sufficiency check, the negation of its
insufficient-stock guard `inventory.quantity - inventory.reservedQuantity
< quantity`. -/
def hasSufficientInventory (inv : Inventory) (q : Int) : Prop :=
  ¬ (inv.quantity - inv.reservedQuantity < q)

/-- The accepted-update state change (Inventory service lines 271-278):
decrement quantity by q, increment reservedQuantity by q, record the
idempotency key. -/
def inventoryReserve (inv : Inventory) (q : Int) (k : String) : Inventory :=
  { inv with
    quantity := inv.quantity - q,
    reservedQuantity := inv.reservedQuantity + q,
    lastIdempotencyKey := some k }

/-- The compensation state change (Inventory service lines 344-351). -/
def inventoryCompensate (inv : Inventory) (q : Int) (k : String)
    (oid : String) : Inventory :=
  { inv with
    compensationKey := some k,
    orderId := some oid,
    quantity := inv.quantity + q,
    reservedQuantity := max 0 (inv.reservedQuantity - q) }

/-! ## Handler bodies

Each body is the handler source text after destructuring, as a function
of the request, the results of its repository lookups, the generated
UUIDs, and the current time.  The lookup results are passed as `Option`
values because the handlers branch on falsiness (`if (existingSaga)`,
`if (!inventory)` ...); the theorems for the findOne pipeline show which
of those branches the real repositories can actually reach. -/

structure OrderStartRequest where
  customerId : String
  productId : String
  quantity : Int
  totalPrice : Int
  deriving DecidableEq

/-- Order start handler body (src/Order.ts lines 184-309).  When the
idempotency-key lookup finds an existing saga it returns the original
ids with message "Saga already initiated" and issues no write; otherwise
it issues five separate repository writes: saga log insert, Order row
upsert, saga log re-save with CREATE_ORDER completed and the orderId
set, OrderCreated outbox append targeting payment, and a final saga log
re-save stamping the PROCESS_PAYMENT step. -/
def orderStartBody (k : String) (req : OrderStartRequest)
    (existingSaga : Option SagaLog) (sagaLogId orderId outboxId : String)
    (now : Nat) : List DbWrite × Response :=
  match existingSaga with
  | some s =>
    ([], { success := true, message := "Saga already initiated",
           orderId := s.orderId, sagaLogId := some s.sagaLogId })
  | none =>
    let sagaLog0 : SagaLog :=
      { sagaLogId := sagaLogId, customerId := req.customerId,
        idempotencyKey := k, orderId := none, productId := req.productId,
        quantity := req.quantity, status := "STARTED", steps := pendingSteps,
        totalPrice := req.totalPrice, createdAt := now }
    let order : Order :=
      { id := orderId, customerId := req.customerId,
        productId := req.productId, quantity := req.quantity,
        sagaLogId := sagaLogId, status := "CONFIRMED",
        totalPrice := req.totalPrice }
    let sagaLog1 : SagaLog :=
      { markStep sagaLog0 "CREATE_ORDER"
          (fun st => { st with status := "COMPLETED", timestamp := some now })
        with orderId := some orderId }
    let ev : Outbox :=
      { id := outboxId, aggregateId := orderId, eventType := "OrderCreated",
        isPublished := false, lastError := none, maxRetries := 3,
        payload := "", publishAttempts := 0, publishedAt := none,
        targetEndpoint := "/payments/process-payment",
        targetService := "payment", createdAt := now }
    let sagaLog2 :=
      markStep sagaLog1 "PROCESS_PAYMENT"
        (fun st => { st with status := "PENDING", timestamp := some now })
    ([DbWrite.sagaSave sagaLog0, DbWrite.orderSave order,
      DbWrite.sagaSave sagaLog1, DbWrite.outboxSave ev,
      DbWrite.sagaSave sagaLog2],
     { success := true,
       message := "Order saga initiated successfully - events queued for processing",
       orderId := some orderId, sagaLogId := some sagaLogId })

/-- The Order start endpoint as served: the body applied to the result
of the real idempotency-key lookup (src/Order.ts line 194). -/
def orderStart (db : Db) (k : String) (req : OrderStartRequest)
    (sagaLogId orderId outboxId : String) (now : Nat) :
    Except DbErr (List DbWrite × Response) :=
  match sagaLogFindByIdempotencyKey db k with
  | Except.error e => Except.error e
  | Except.ok s => Except.ok (orderStartBody k req (some s) sagaLogId orderId outboxId now)

structure PaymentProcessRequest where
  amount : Int
  customerId : String
  orderId : String
  sagaLogId : String
  deriving DecidableEq

/-- Payment process handler body (src/Payment.ts lines 211-332).
`shouldFail` is the simulated 10 percent payment failure coin flip
(`Math.random() < 0.1`, line 250).  On failure the body saves the
payment row with status FAILED, re-saves the saga log twice (step
IN_PROGRESS, then FAILED with error "Payment declined") and returns
success false - it appends nothing to the outbox.  On success it
appends one outbox event carrying the literals "PAYMENT_PROCESSED" and
"INVENTORY" exactly as the source writes them. -/
def paymentProcessBody (k : String) (req : PaymentProcessRequest)
    (existingPayment : Option Payment) (sagaLookup : Option SagaLog)
    (shouldFail : Bool) (paymentId outboxId : String) (now : Nat) :
    List DbWrite × Response :=
  match existingPayment with
  | some p =>
    ([], { success := true, message := "Payment already processed",
           data := some (RespData.payment p) })
  | none =>
    match sagaLookup with
    | none => ([], { success := false, message := "SagaLog not found" })
    | some sagaLog =>
      let payment : Payment :=
        { id := paymentId, amount := req.amount, compensationKey := none,
          customerId := req.customerId, idempotencyKey := k,
          orderId := req.orderId, sagaLogId := req.sagaLogId,
          status := if shouldFail then "FAILED" else "PROCESSED" }
      let s1 :=
        markStep sagaLog "PROCESS_PAYMENT"
          (fun st => { st with status := "IN_PROGRESS", timestamp := some now })
      if shouldFail then
        let s2 :=
          markStep s1 "PROCESS_PAYMENT"
            (fun st => { st with status := "FAILED", error := some "Payment declined" })
        ([DbWrite.paymentSave payment, DbWrite.sagaSave s1, DbWrite.sagaSave s2],
         { success := false, error := some "Payment declined",
           message := "Error processing payment" })
      else
        let s2 :=
          markStep s1 "PROCESS_PAYMENT"
            (fun st => { st with status := "COMPLETED" })
        let ev : Outbox :=
          { id := outboxId, aggregateId := req.orderId,
            eventType := "PAYMENT_PROCESSED", isPublished := false,
            lastError := none, maxRetries := 3, payload := "",
            publishAttempts := 0, publishedAt := none,
            targetEndpoint := "/inventories/update-inventory",
            targetService := "INVENTORY", createdAt := now }
        ([DbWrite.paymentSave payment, DbWrite.sagaSave s1,
          DbWrite.sagaSave s2, DbWrite.outboxSave ev],
         { success := true, message := "Payment processed - inventory event queued",
           data := some (RespData.payment payment) })

structure InventoryUpdateRequest where
  orderId : String
  productId : String
  quantity : Int
  sagaLogId : String
  deriving DecidableEq

/-- Inventory update handler body (Inventory service, repository-backed
version, lines 208-316).  Auto-creates the inventory row at 100 units
when the productId lookup found none; marks UPDATE_INVENTORY
IN_PROGRESS; on insufficient stock marks it FAILED and returns success
false with no outbox append; on sufficient stock decrements quantity,
increments reservedQuantity, marks the step COMPLETED and appends an
InventoryUpdated event targeting shipping. -/
def inventoryUpdateBody (k : String) (req : InventoryUpdateRequest)
    (existingByKey : Option Inventory) (sagaLookup : SagaLog)
    (invLookup : Option Inventory) (newInvId outboxId : String)
    (now : Nat) : List DbWrite × Response :=
  match existingByKey with
  | some inv =>
    ([], { success := true, message := "Inventory already updated",
           data := some (RespData.inventory inv) })
  | none =>
    let invInit : Inventory × List DbWrite :=
      match invLookup with
      | none =>
        let fresh : Inventory :=
          { id := newInvId, compensationKey := none,
            lastIdempotencyKey := none, orderId := none,
            productId := some req.productId, quantity := 100,
            reservedQuantity := 0 }
        (fresh, [DbWrite.inventorySave fresh])
      | some inv => (inv, [])
    let inventory := invInit.1
    let initWrites := invInit.2
    let s1 :=
      markStep sagaLookup "UPDATE_INVENTORY"
        (fun st => { st with status := "IN_PROGRESS", timestamp := some now })
    if inventory.quantity - inventory.reservedQuantity < req.quantity then
      let s2 :=
        markStep s1 "UPDATE_INVENTORY"
          (fun st => { st with status := "FAILED", error := some "Insufficient inventory" })
      (initWrites ++ [DbWrite.sagaSave s1, DbWrite.sagaSave s2],
       { success := false, error := some "Insufficient inventory",
         message := "Error updating inventory" })
    else
      let inv2 : Inventory := inventoryReserve inventory req.quantity k
      let s2 :=
        markStep s1 "UPDATE_INVENTORY"
          (fun st => { st with status := "COMPLETED" })
      let ev : Outbox :=
        { id := outboxId, aggregateId := req.orderId,
          eventType := "InventoryUpdated", isPublished := false,
          lastError := none, maxRetries := 3, payload := "",
          publishAttempts := 0, publishedAt := none,
          targetEndpoint := "/shipments/deliver-order",
          targetService := "shipping", createdAt := now }
      (initWrites ++ [DbWrite.sagaSave s1, DbWrite.inventorySave inv2,
        DbWrite.sagaSave s2, DbWrite.outboxSave ev],
       { success := true, message := "Inventory update successfully",
         data := some (RespData.inventory inv2) })

/-! ## Outbox publisher (src/Outbox.ts lines 143-341) -/

/-- The findUnpublished scan (src/Outbox.ts lines 143-148).  The source
query is `SELECT * FROM tbl_outbox WEHRE is_published = FALSE LIMIT n`:
read with the evidently intended WHERE, it selects only on is_published
and applies the LIMIT - there is no publish_attempts predicate and no
ORDER BY.  (Executed literally, the misspelt WEHRE makes the statement
invalid SQL and the call dies with a SqlError defect.) -/
def findUnpublished (tbl : List Outbox) (batchSize : Nat) : List Outbox :=
  (tbl.filter (fun e => e.isPublished = false)).take batchSize

/-- The outbox row publishSingleEvent hands to repository.save
(src/Outbox.ts lines 223-291), as a function of the dispatch outcome
(`none` = HTTP 2xx with a JSON body, `some msg` = any failure).  On
success the event is saved published with publishedAt set.  On failure
the handler builds `newEvent` with publishAttempts incremented and
lastError set, but only saves it (with isPublished false) when the
incremented count reaches config.maxRetries; otherwise it saves the
original `event` unchanged (line 288: `repository.save(event)`). -/
def publishSingleEvent (maxRetries : Nat) (now : Nat) (event : Outbox)
    (failure : Option String) : Outbox :=
  match failure with
  | none => { event with isPublished := true, publishedAt := some now }
  | some msg =>
    let newEvent :=
      { event with
        publishAttempts := event.publishAttempts + 1,
        lastError := some msg }
    if maxRetries ≤ newEvent.publishAttempts then
      { newEvent with isPublished := false }
    else
      event

structure ServiceUrls where
  order : String
  payment : String
  inventory : String
  shipping : String
  deriving DecidableEq

/-- The `serviceUrls[service]` record lookup: the config record has
exactly the four service keys; any other string indexes to undefined. -/
def serviceUrlLookup (urls : ServiceUrls) (service : String) : Option String :=
  if service = "order" then some urls.order
  else if service = "payment" then some urls.payment
  else if service = "inventory" then some urls.inventory
  else if service = "shipping" then some urls.shipping
  else none

/-- buildTargetUrl (src/Outbox.ts lines 211-221).  `!baseUrl` holds for
a missing key and for an empty string, both producing the Unknown
service failure; otherwise the URL is the base concatenated with
"/api/v1" and the endpoint. -/
def buildTargetUrl (service endpoint : String) (urls : ServiceUrls) :
    Except String String :=
  match serviceUrlLookup urls service with
  | none => Except.error ("Unknown service: " ++ service)
  | some baseUrl =>
    if baseUrl = "" then Except.error ("Unknown service: " ++ service)
    else Except.ok (baseUrl ++ "/api/v1" ++ endpoint)

/-- The outbound idempotency key computed by publishSingleEvent
(src/Outbox.ts line 239). -/
def outboundIdempotencyKey (event : Outbox) : String :=
  event.aggregateId ++ "-" ++ event.eventType

/-- The outbound HTTP POST built by publishSingleEvent. -/
structure HttpPost where
  url : String
  idempotencyKey : String
  body : String
  deriving DecidableEq

/-- The request publishSingleEvent dispatches for an event (src/Outbox.ts
lines 233-252): target URL from buildTargetUrl, idempotency-key header
from the aggregate id and event type, JSON payload as body. -/
def publishRequest (urls : ServiceUrls) (event : Outbox) :
    Except String HttpPost :=
  match buildTargetUrl event.targetService event.targetEndpoint urls with
  | Except.error e => Except.error e
  | Except.ok targetUrl =>
    Except.ok { url := targetUrl,
                idempotencyKey := outboundIdempotencyKey event,
                body := event.payload }

/-! ## Helper lemmas -/

/-- Looking up a step name in a list after the handlers' mark-one-step
map: when the mutation preserves the step name, the lookup finds the
mutated record. -/
theorem find_mark (l : List Step) (n : String) (f : Step → Step)
    (hf : ∀ st, (f st).stepName = st.stepName) :
    (l.map (fun st => if st.stepName = n then f st else st)).find?
        (fun st => st.stepName = n)
      = (l.find? (fun st => st.stepName = n)).map f := by
  induction l with
  | nil => rfl
  | cons hd tl ih =>
    by_cases h : hd.stepName = n
    · simp [List.find?_cons, h, hf hd]
    · simp [List.find?_cons, h, ih]

theorem stepOf_markStep (s : SagaLog) (n : String) (f : Step → Step)
    (hf : ∀ st, (f st).stepName = st.stepName) :
    stepOf (markStep s n f) n = (stepOf s n).map f := by
  unfold stepOf markStep
  exact find_mark s.steps n f hf

theorem findOneDecode_error {α : Type} {rows : List α} {e : DbErr}
    (h : findOneDecode rows = Except.error e) : e = DbErr.parseDefect := by
  unfold findOneDecode at h
  cases hh : rows.head? with
  | none => rw [hh] at h; exact (Except.error.injEq _ _).mp h.symm
  | some r => rw [hh] at h; cases h

/-! ## Sample data for the closed theorems -/

def sampleStartRequest : OrderStartRequest :=
  { customerId := "c1", productId := "p1", quantity := 2, totalPrice := 40 }

def samplePaymentRequest : PaymentProcessRequest :=
  { amount := 40, customerId := "c1", orderId := "o1", sagaLogId := "s1" }

/-- A saga log as the Order start handler would have it after step 1:
orderId set, initiation key k1. -/
def sampleSaga : SagaLog :=
  { sagaLogId := "s1", customerId := "c1", idempotencyKey := "k1",
    orderId := some "o1", productId := "p1", quantity := 2,
    status := "STARTED", steps := pendingSteps, totalPrice := 40,
    createdAt := 0 }

/-- A saga log whose CREATE_ORDER step record has been mutated to
COMPLETED by a load-then-mutate caller. -/
def sampleMutatedSaga : SagaLog :=
  { sampleSaga with
    steps :=
      { pendingStep "CREATE_ORDER" with status := "COMPLETED", timestamp := some 7 }
        :: [pendingStep "PROCESS_PAYMENT", pendingStep "UPDATE_INVENTORY",
            pendingStep "DELIVER_ORDER"] }

/-- An unpublished event whose publish attempts have reached
maxRetries - terminally failed per the specification. -/
def exhaustedEvent : Outbox :=
  { id := "e9", aggregateId := "o9", eventType := "OrderCreated",
    isPublished := false, lastError := some "Request timeout",
    maxRetries := 3, payload := "", publishAttempts := 3,
    publishedAt := none, targetEndpoint := "/payments/process-payment",
    targetService := "payment", createdAt := 1 }

/-- A fresh unpublished event that has never been attempted. -/
def retriableEvent : Outbox :=
  { id := "e5", aggregateId := "o5", eventType := "OrderCreated",
    isPublished := false, lastError := none, maxRetries := 3,
    payload := "", publishAttempts := 0, publishedAt := none,
    targetEndpoint := "/payments/process-payment",
    targetService := "payment", createdAt := 2 }

def sampleInventory : Inventory :=
  { id := "i1", compensationKey := none, lastIdempotencyKey := none,
    orderId := none, productId := some "p1", quantity := 100,
    reservedQuantity := 60 }

def sampleUrls : ServiceUrls :=
  { order := "http://localhost:3001", payment := "http://localhost:3002",
    inventory := "http://localhost:3003",
    shipping := "http://localhost:3004" }

/-! ## Claim theorems -/

/-- C2 (code bug).  SagaLogRepository.save is not an upsert: the first
save commits the row but stores the four default PENDING step records
(the caller's mutated steps are ignored by create_saga_log) and then
raises a ParseError defect decoding the returned UUID; a second save of
the same sagaId violates the tbl_saga_log primary key instead of
replacing the row.  The claim says save(load-then-mutate) applied twice
to the same sagaId succeeds and replaces the step records. -/
theorem sagaLogSave_double_insert_fails :
    (stepWrite emptyDb (DbWrite.sagaSave sampleMutatedSaga)).2 = some DbErr.parseDefect
  ∧ ((stepWrite emptyDb (DbWrite.sagaSave sampleMutatedSaga)).1.sagaLogs.map
      (fun r => r.steps)) = [pendingSteps]
  ∧ sampleMutatedSaga.steps ≠ pendingSteps
  ∧ (stepWrite (stepWrite emptyDb (DbWrite.sagaSave sampleMutatedSaga)).1
      (DbWrite.sagaSave sampleMutatedSaga)).2
      = some (DbErr.uniqueViolation "saga_log_id") := by
  refine ⟨rfl, rfl, ?_, rfl⟩
  decide

/-- C4 (code bug).  findUnpublished returns a terminally failed event
(isPublished false and publishAttempts at maxRetries): the scan has no
publish_attempts predicate, so such events are fetched and retried
forever, while the claim says they are never returned.  (The literal
source SQL is additionally invalid - WHERE is misspelt WEHRE - so the
call would in fact die.) -/
theorem findUnpublished_returns_exhausted :
    findUnpublished [exhaustedEvent] 10 = [exhaustedEvent]
  ∧ exhaustedEvent.isPublished = false
  ∧ exhaustedEvent.maxRetries ≤ exhaustedEvent.publishAttempts := by
  refine ⟨rfl, rfl, ?_⟩
  decide

/-- C5 (code bug).  When a dispatch fails and the incremented attempt
count is still below maxRetries, publishSingleEvent saves the original
event object (src/Outbox.ts line 288), not the newEvent it just built:
the persisted row keeps publishAttempts = 0 and lastError = null, while
the claim says publishAttempts is incremented and lastError set on
every failure. -/
theorem publishFailure_saves_stale_event :
    publishSingleEvent 3 50 retriableEvent (some "Request timeout") = retriableEvent
  ∧ (publishSingleEvent 3 50 retriableEvent (some "Request timeout")).publishAttempts
      ≠ retriableEvent.publishAttempts + 1
  ∧ (publishSingleEvent 3 50 retriableEvent (some "Request timeout")).lastError = none := by
  refine ⟨rfl, ?_, rfl⟩
  decide

/-- C7 (code bug).  The accepted inventory update at quantity 100,
reservedQuantity 60 with requested quantity 40 passes the handler's
sufficiency check but produces quantity 60, reservedQuantity 100,
violating the documented invariant 0 <= reservedQuantity <= quantity
(which is also a CHECK constraint on tbl_inventory). -/
theorem inventoryReserve_breaks_invariant :
    inventoryInvariant sampleInventory
  ∧ hasSufficientInventory sampleInventory 40
  ∧ ¬ inventoryInvariant (inventoryReserve sampleInventory 40 "k7")
  ∧ (inventoryReserve sampleInventory 40 "k7").quantity = 60
  ∧ (inventoryReserve sampleInventory 40 "k7").reservedQuantity = 100 := by
  unfold inventoryInvariant hasSufficientInventory inventoryReserve sampleInventory
  decide

/-- C1 (code bug).  A fresh /order/start on an empty database does not
persist the saga log, the Order row and the OrderCreated outbox event
atomically: the handler issues five separate auto-committed writes (the
withTransaction wrapper is commented out although the adjacent comment
says the writes run in a single transaction), and already the first
write commits the saga-log row and then raises a defect (the repository
decodes create_saga_log's UUID return value as a SagaLog), so execution
halts in a reachable durable state that contains the saga log but
neither the Order row nor the OrderCreated event. -/
theorem orderStart_not_atomic :
    ((runWrites emptyDb
        (orderStartBody "k1" sampleStartRequest none "s1" "o1" "e1" 0).1).2
      = some DbErr.parseDefect)
  ∧ ((runWrites emptyDb
        (orderStartBody "k1" sampleStartRequest none "s1" "o1" "e1" 0).1).1.map
          (fun d => (d.sagaLogs.length, d.orders, d.outbox)))
      = [(1, ([] : List Order), ([] : List Outbox))] :=
  ⟨rfl, rfl⟩

/-- C3 counterexample.  A payment process request whose simulated
payment fails (shouldFail = true) appends no outbox event at all - in
particular no PaymentFailed event targeting order:/orders/compensate -
even though it does return success false with the error. -/
theorem paymentFailure_appends_no_event :
    ((paymentProcessBody "k2" samplePaymentRequest none (some sampleSaga)
        true "pay1" "e2" 10).1.filter isOutboxWrite) = []
  ∧ (paymentProcessBody "k2" samplePaymentRequest none (some sampleSaga)
        true "pay1" "e2" 10).2
      = { success := false, error := some "Payment declined",
          message := "Error processing payment" } :=
  ⟨rfl, rfl⟩

/-- C3 (corrected).  On simulated payment failure the handler saves the
payment row, marks the PROCESS_PAYMENT step FAILED with the error
recorded and returns success false with the error, but issues no outbox
write whatsoever: the PaymentFailed compensation event of the claim is
never appended. -/
theorem paymentFailure_behavior (k : String) (req : PaymentProcessRequest)
    (s : SagaLog) (st0 : Step) (pid oid : String) (now : Nat)
    (h : stepOf s "PROCESS_PAYMENT" = some st0) :
    ((paymentProcessBody k req none (some s) true pid oid now).1.filter
        isOutboxWrite = [])
  ∧ (paymentProcessBody k req none (some s) true pid oid now).2
      = { success := false, error := some "Payment declined",
          message := "Error processing payment" }
  ∧ ∃ s2, DbWrite.sagaSave s2
        ∈ (paymentProcessBody k req none (some s) true pid oid now).1
      ∧ stepOf s2 "PROCESS_PAYMENT"
          = some { st0 with
                   status := "FAILED",
                   error := some "Payment declined",
                   timestamp := some now } := by
  refine ⟨rfl, rfl, ?_⟩
  refine ⟨markStep
      (markStep s "PROCESS_PAYMENT"
        (fun st => { st with status := "IN_PROGRESS", timestamp := some now }))
      "PROCESS_PAYMENT"
      (fun st => { st with status := "FAILED", error := some "Payment declined" }),
    ?_, ?_⟩
  · exact List.Mem.tail _ (List.Mem.tail _ (List.Mem.head _))
  · rw [stepOf_markStep _ _
        (fun st => { st with status := "FAILED", error := some "Payment declined" })
        (fun st => rfl),
      stepOf_markStep _ _
        (fun st => { st with status := "IN_PROGRESS", timestamp := some now })
        (fun st => rfl),
      h]
    rfl

/-- C3 witness: the corrected behaviour at a concrete failing request. -/
theorem paymentFailure_behavior_witness :
    ((paymentProcessBody "k2" samplePaymentRequest none (some sampleSaga)
        true "pay9" "e8" 11).1.filter isOutboxWrite = [])
  ∧ (paymentProcessBody "k2" samplePaymentRequest none (some sampleSaga)
        true "pay9" "e8" 11).2
      = { success := false, error := some "Payment declined",
          message := "Error processing payment" } :=
  ⟨(paymentFailure_behavior "k2" samplePaymentRequest sampleSaga
      (pendingStep "PROCESS_PAYMENT") "pay9" "e8" 11 rfl).1,
   (paymentFailure_behavior "k2" samplePaymentRequest sampleSaga
      (pendingStep "PROCESS_PAYMENT") "pay9" "e8" 11 rfl).2.1⟩

def sampleUpdateRequest : InventoryUpdateRequest :=
  { orderId := "o1", productId := "p1", quantity := 200, sagaLogId := "s1" }

def smallUpdateRequest : InventoryUpdateRequest :=
  { orderId := "o1", productId := "p1", quantity := 30, sagaLogId := "s1" }

/-- C6 counterexample.  An insufficient-stock update (200 requested
against 100 on hand, 60 reserved) marks the step FAILED and returns
success false, but appends no outbox event - in particular no
InventoryFailed event targeting payment:/payments/refund. -/
theorem inventoryInsufficient_appends_no_event :
    ((inventoryUpdateBody "k3" sampleUpdateRequest none sampleSaga
        (some sampleInventory) "i2" "e3" 12).1.filter isOutboxWrite) = []
  ∧ (inventoryUpdateBody "k3" sampleUpdateRequest none sampleSaga
        (some sampleInventory) "i2" "e3" 12).2
      = { success := false, error := some "Insufficient inventory",
          message := "Error updating inventory" } :=
  ⟨rfl, rfl⟩

/-- C6 (corrected).  The inventory update handler auto-creates a
100-unit row when the product has none; on sufficient stock it saves
the decremented/reserved row, marks UPDATE_INVENTORY COMPLETED and
appends an InventoryUpdated event targeting
shipping:/shipments/deliver-order; on insufficient stock it marks the
step FAILED with the error and returns success false, appending no
outbox event (the InventoryFailed compensation event of the claim does
not exist in the code). -/
theorem inventoryUpdate_behavior (k : String) (req : InventoryUpdateRequest)
    (s : SagaLog) (st0 : Step) (inv : Inventory) (nid oid : String)
    (now : Nat) (hstep : stepOf s "UPDATE_INVENTORY" = some st0) :
    (DbWrite.inventorySave
        { id := nid, compensationKey := none, lastIdempotencyKey := none,
          orderId := none, productId := some req.productId,
          quantity := 100, reservedQuantity := 0 }
      ∈ (inventoryUpdateBody k req none s none nid oid now).1)
  ∧ (inv.quantity - inv.reservedQuantity < req.quantity →
      ((inventoryUpdateBody k req none s (some inv) nid oid now).1.filter
          isOutboxWrite = [])
    ∧ (inventoryUpdateBody k req none s (some inv) nid oid now).2
        = { success := false, error := some "Insufficient inventory",
            message := "Error updating inventory" }
    ∧ ∃ s2, DbWrite.sagaSave s2
          ∈ (inventoryUpdateBody k req none s (some inv) nid oid now).1
        ∧ stepOf s2 "UPDATE_INVENTORY"
            = some { st0 with
                     status := "FAILED",
                     error := some "Insufficient inventory",
                     timestamp := some now })
  ∧ (¬ (inv.quantity - inv.reservedQuantity < req.quantity) →
      (DbWrite.inventorySave (inventoryReserve inv req.quantity k)
        ∈ (inventoryUpdateBody k req none s (some inv) nid oid now).1)
    ∧ (∃ ev, DbWrite.outboxSave ev
          ∈ (inventoryUpdateBody k req none s (some inv) nid oid now).1
        ∧ ev.eventType = "InventoryUpdated"
        ∧ ev.targetService = "shipping"
        ∧ ev.targetEndpoint = "/shipments/deliver-order")
    ∧ ∃ s2, DbWrite.sagaSave s2
          ∈ (inventoryUpdateBody k req none s (some inv) nid oid now).1
        ∧ stepOf s2 "UPDATE_INVENTORY"
            = some { st0 with
                     status := "COMPLETED",
                     timestamp := some now }) := by
  refine ⟨?_, ?_, ?_⟩
  · by_cases hc : (100 : Int) - 0 < req.quantity
    · simp only [inventoryUpdateBody, if_pos hc]
      exact List.Mem.head _
    · simp only [inventoryUpdateBody, if_neg hc]
      exact List.Mem.head _
  · intro hc
    refine ⟨?_, ?_, ?_⟩
    · simp only [inventoryUpdateBody, if_pos hc]
      rfl
    · simp only [inventoryUpdateBody, if_pos hc]
    · refine ⟨markStep
          (markStep s "UPDATE_INVENTORY"
            (fun st => { st with status := "IN_PROGRESS", timestamp := some now }))
          "UPDATE_INVENTORY"
          (fun st =>
            { st with
              status := "FAILED",
              error := some "Insufficient inventory" }),
        ?_, ?_⟩
      · simp only [inventoryUpdateBody, if_pos hc]
        exact List.Mem.tail _ (List.Mem.head _)
      · rw [stepOf_markStep _ _
            (fun st =>
              { st with
                status := "FAILED",
                error := some "Insufficient inventory" })
            (fun st => rfl),
          stepOf_markStep _ _
            (fun st => { st with status := "IN_PROGRESS", timestamp := some now })
            (fun st => rfl),
          hstep]
        rfl
  · intro hc
    refine ⟨?_, ?_, ?_⟩
    · simp only [inventoryUpdateBody, if_neg hc]
      exact List.Mem.tail _ (List.Mem.head _)
    · refine ⟨{ id := oid,
                aggregateId := req.orderId,
                eventType := "InventoryUpdated",
                isPublished := false,
                lastError := none,
                maxRetries := 3,
                payload := "",
                publishAttempts := 0,
                publishedAt := none,
                targetEndpoint := "/shipments/deliver-order",
                targetService := "shipping",
                createdAt := now }, ?_, rfl, rfl, rfl⟩
      simp only [inventoryUpdateBody, if_neg hc]
      exact List.Mem.tail _ (List.Mem.tail _ (List.Mem.tail _ (List.Mem.head _)))
    · refine ⟨markStep
          (markStep s "UPDATE_INVENTORY"
            (fun st => { st with status := "IN_PROGRESS", timestamp := some now }))
          "UPDATE_INVENTORY"
          (fun st => { st with status := "COMPLETED" }),
        ?_, ?_⟩
      · simp only [inventoryUpdateBody, if_neg hc]
        exact List.Mem.tail _ (List.Mem.tail _ (List.Mem.head _))
      · rw [stepOf_markStep _ _
            (fun st => { st with status := "COMPLETED" })
            (fun st => rfl),
          stepOf_markStep _ _
            (fun st => { st with status := "IN_PROGRESS", timestamp := some now })
            (fun st => rfl),
          hstep]
        rfl

/-- C6 witness: the corrected behaviour at concrete insufficient and
sufficient requests. -/
theorem inventoryUpdate_behavior_witness :
    ((inventoryUpdateBody "k3" sampleUpdateRequest none sampleSaga
        (some sampleInventory) "i2" "e4" 13).1.filter isOutboxWrite = [])
  ∧ (DbWrite.inventorySave (inventoryReserve sampleInventory 30 "k4")
      ∈ (inventoryUpdateBody "k4" smallUpdateRequest none sampleSaga
          (some sampleInventory) "i2" "e4" 13).1) :=
  ⟨((inventoryUpdate_behavior "k3" sampleUpdateRequest sampleSaga
      (pendingStep "UPDATE_INVENTORY") sampleInventory "i2" "e4" 13
      rfl).2.1 (by decide)).1,
   ((inventoryUpdate_behavior "k4" smallUpdateRequest sampleSaga
      (pendingStep "UPDATE_INVENTORY") sampleInventory "i2" "e4" 13
      rfl).2.2 (by decide)).1⟩

/-- C8 counterexample.  Replaying /order/start with the original
idempotency key returns the original orderId and sagaLogId with zero
writes, but the response envelope is not byte-identical to the first
response: the message fields differ ("Saga already initiated" versus
"Order saga initiated successfully - events queued for processing"),
and neither envelope contains a timestamp that could account for the
difference. -/
theorem replay_envelope_differs :
    (orderStartBody "k1" sampleStartRequest (some sampleSaga) "s9" "o9" "e9" 99).1 = []
  ∧ (orderStartBody "k1" sampleStartRequest (some sampleSaga) "s9" "o9" "e9" 99).2.orderId
      = (orderStartBody "k1" sampleStartRequest none "s1" "o1" "e1" 0).2.orderId
  ∧ (orderStartBody "k1" sampleStartRequest (some sampleSaga) "s9" "o9" "e9" 99).2.sagaLogId
      = (orderStartBody "k1" sampleStartRequest none "s1" "o1" "e1" 0).2.sagaLogId
  ∧ (orderStartBody "k1" sampleStartRequest (some sampleSaga) "s9" "o9" "e9" 99).2.message
      ≠ (orderStartBody "k1" sampleStartRequest none "s1" "o1" "e1" 0).2.message
  ∧ (orderStartBody "k1" sampleStartRequest (some sampleSaga) "s9" "o9" "e9" 99).2
      ≠ (orderStartBody "k1" sampleStartRequest none "s1" "o1" "e1" 0).2 := by
  refine ⟨rfl, rfl, rfl, ?_, ?_⟩ <;> decide

/-- C8 (corrected).  A replayed /order/start short-circuits on the
idempotency-key lookup: it performs zero repository writes and returns
success with the original orderId and sagaLogId, but with the fixed
message "Saga already initiated", which differs from the first-call
message, so the envelopes are not byte-identical. -/
theorem replay_short_circuits (k : String) (req : OrderStartRequest)
    (s : SagaLog) (sid oid eid : String) (now : Nat) :
    orderStartBody k req (some s) sid oid eid now
      = ([], { success := true, message := "Saga already initiated",
               orderId := s.orderId, sagaLogId := some s.sagaLogId }) :=
  rfl

/-- C9 (confirmed).  For every event the publisher dispatches (its
target service resolves to a nonempty base URL), the outbound POST goes
to serviceUrls[targetService] ++ "/api/v1" ++ targetEndpoint and
carries the idempotency-key header aggregateId ++ "-" ++ eventType, a
deterministic function of the event. -/
theorem publishRequest_shape (urls : ServiceUrls) (event : Outbox)
    (baseUrl : String)
    (hfind : serviceUrlLookup urls event.targetService = some baseUrl)
    (hne : baseUrl ≠ "") :
    publishRequest urls event
      = Except.ok { url := baseUrl ++ "/api/v1" ++ event.targetEndpoint,
                    idempotencyKey := event.aggregateId ++ "-" ++ event.eventType,
                    body := event.payload } := by
  unfold publishRequest buildTargetUrl outboundIdempotencyKey
  rw [hfind]
  simp [hne]

/-- C9 witness: a concrete OrderCreated event against the default
service URLs. -/
theorem publishRequest_shape_witness :
    publishRequest sampleUrls retriableEvent
      = Except.ok { url := "http://localhost:3002" ++ "/api/v1"
                      ++ retriableEvent.targetEndpoint,
                    idempotencyKey := retriableEvent.aggregateId ++ "-"
                      ++ retriableEvent.eventType,
                    body := retriableEvent.payload } :=
  publishRequest_shape sampleUrls retriableEvent "http://localhost:3002"
    rfl (by decide)

/-- C10 (confirmed).  Every repository findOne pipeline dies with a
defect when no row matches (rows[0] is undefined and the schema decode
fails), never returning a null or undefined value; consequently the
Order start endpoint either dies or short-circuits into the
already-initiated reply - the falsy-guarded not-found and first-time
branches of the handlers are unreachable. -/
theorem findOne_no_row_defect :
    (∀ (α : Type) (rows : List α), rows = [] →
        findOneDecode rows = Except.error DbErr.parseDefect)
  ∧ (∀ (db : Db) (k : String),
        db.sagaLogs.filter (fun s => s.idempotencyKey = k) = [] →
        sagaLogFindByIdempotencyKey db k = Except.error DbErr.parseDefect)
  ∧ (∀ (db : Db) (oid : String),
        db.orders.filter (fun o => o.id = oid) = [] →
        orderFindById db oid = Except.error DbErr.parseDefect)
  ∧ (∀ (db : Db) (k : String),
        db.payments.filter (fun p => p.idempotencyKey = k) = [] →
        paymentFindByIdempotencyKey db k = Except.error DbErr.parseDefect)
  ∧ (∀ (db : Db) (pid : String),
        db.inventories.filter (fun i => i.productId = some pid) = [] →
        inventoryFindByProductId db pid = Except.error DbErr.parseDefect)
  ∧ (∀ (db : Db) (k : String),
        db.shippings.filter (fun s => s.idempotencyKey = k) = [] →
        shippingFindByIdempotencyKey db k = Except.error DbErr.parseDefect)
  ∧ (∀ (db : Db) (k : String) (req : OrderStartRequest)
        (sid oid eid : String) (now : Nat),
        orderStart db k req sid oid eid now = Except.error DbErr.parseDefect
      ∨ ∃ s : SagaLog, sagaLogFindByIdempotencyKey db k = Except.ok s
          ∧ orderStart db k req sid oid eid now
              = Except.ok ([],
                  { success := true,
                    message := "Saga already initiated",
                    orderId := s.orderId,
                    sagaLogId := some s.sagaLogId })) := by
  refine ⟨?_, ?_, ?_, ?_, ?_, ?_, ?_⟩
  · intro α rows h
    rw [h]
    rfl
  · intro db k h
    unfold sagaLogFindByIdempotencyKey
    rw [h]
    rfl
  · intro db oid h
    unfold orderFindById
    rw [h]
    rfl
  · intro db k h
    unfold paymentFindByIdempotencyKey
    rw [h]
    rfl
  · intro db pid h
    unfold inventoryFindByProductId
    rw [h]
    rfl
  · intro db k h
    unfold shippingFindByIdempotencyKey
    rw [h]
    rfl
  · intro db k req sid oid eid now
    cases hfind : sagaLogFindByIdempotencyKey db k with
    | error e =>
      left
      have he : e = DbErr.parseDefect := findOneDecode_error hfind
      unfold orderStart
      rw [hfind, he]
    | ok s =>
      right
      refine ⟨s, rfl, ?_⟩
      unfold orderStart
      rw [hfind]
      rfl

/-- C10 witness: concrete missing-row lookups on the empty database. -/
theorem findOne_no_row_defect_witness :
    sagaLogFindByIdempotencyKey emptyDb "k1" = Except.error DbErr.parseDefect
  ∧ paymentFindByIdempotencyKey emptyDb "k1" = Except.error DbErr.parseDefect
  ∧ orderFindById emptyDb "o1" = Except.error DbErr.parseDefect :=
  ⟨findOne_no_row_defect.2.1 emptyDb "k1" rfl,
   findOne_no_row_defect.2.2.2.1 emptyDb "k1" rfl,
   findOne_no_row_defect.2.2.1 emptyDb "o1" rfl⟩

end EffectSaga
